import Mathlib

/-!
# Arduous — a shallow embedding of the arduous Arduboy emulator core

This file embeds, in Lean 4, the parts of the `arduous` Rust repository that
the verified claims are about:

* `src/arduous/src/atmega32u4.rs` — the ATmega32U4 CPU model: status
  register, general registers, SRAM, data-space dispatch, and the opcode
  handlers `do_adc`, `do_add`, `do_asr`, `do_cpc`, `do_call` (with
  `push_u16`), plus the flag helpers.
* `src/arduous/src/ssd1306.rs` — the SSD1306 display controller: state,
  power-on defaults, `push_data` with the three addressing modes,
  `push_command` / `dispatch_command` with the command-length table, and the
  pixel readout `iter`.
* `src/arduous/src/arduboy.rs` — the `Arduboy` façade: button latches,
  `execute` / `execute_for_a_frame`, and `set_button`.

Modelling conventions:

* Rust `u8`/`u16` values are `Nat` with explicit `% 256` / `% 65536` where
  the source wraps; `overflowing_add`/`overflowing_sub` become `u8_add` /
  `u8_sub`, faithful for inputs below 256 (theorems carry that bound as a
  hypothesis where it matters).
* Rust code that can `panic!` or hit `unreachable!()` returns `Option`;
  `none` is a panic.
* Byte arrays (`sram`, `vram`, `eeprom`, program memory) are total
  functions from `Nat`; Rust's out-of-bounds indexing panics are ruled out
  by the bounds hypotheses of the theorems that touch them.
* `bitvec`'s `view_bits::<Lsb0>()[k]` is `Nat.testBit k`, and
  `bits[a..b].load::<u8>()` on a byte is div/mod arithmetic.
-/

namespace Arduous

/-! ## atmega32u4.rs: memory layout constants -/

def REGISTER_START : Nat := 0x0000
def REGISTER_SIZE : Nat := 32
def REGISTER_END : Nat := REGISTER_START + REGISTER_SIZE - 1
def IO_REGISTER_START : Nat := 0x0020
def IO_REGISTER_SIZE : Nat := 64
def IO_REGISTER_END : Nat := IO_REGISTER_START + IO_REGISTER_SIZE - 1
def EXT_IO_REGISTER_START : Nat := 0x0060
def EXT_IO_REGISTER_SIZE : Nat := 160
def EXT_IO_REGISTER_END : Nat := EXT_IO_REGISTER_START + EXT_IO_REGISTER_SIZE - 1
def SRAM_START : Nat := 0x0100
def SRAM_SIZE : Nat := 2560
def SRAM_END : Nat := SRAM_START + SRAM_SIZE - 1

/-! ## atmega32u4.rs: StatusRegister -/

/-- The AVR status register: eight independent flag bits. -/
structure StatusRegister where
  i : Bool
  t : Bool
  h : Bool
  s : Bool
  v : Bool
  n : Bool
  z : Bool
  c : Bool
deriving DecidableEq, Repr

/-! ## Rust u8 arithmetic

`u8_add a b` is `a.overflowing_add(b)` and `u8_sub a b` is
`a.overflowing_sub(b)`, faithful to the Rust semantics when `a b < 256`. -/

def u8_add (a b : Nat) : Nat × Bool :=
  ((a + b) % 256, decide (256 ≤ a + b))

def u8_sub (a b : Nat) : Nat × Bool :=
  ((a + 256 - b) % 256, decide (a < b))

/-! ## atmega32u4.rs: the CPU state -/

/-- The ATmega32u4 machine state, mirroring `struct ATmega32u4`.

`regs` is the 32-byte general register file; `sram` the 2560-byte SRAM as a
total function (Rust panics on indices outside `0..2560`; theorems that
touch `sram` assume in-bounds indices); `program_memory` and `eeprom` are
carried for completeness but untouched by the embedded opcodes. -/
structure ATmega32u4 where
  program_memory : Nat → Nat
  regs : Fin 32 → Nat
  sram : Nat → Nat
  eeprom : Nat → Nat
  pc : Nat
  sp : Nat
  status : StatusRegister

/-- Rust `GeneralRegisters::pair` / `Sram::pair`: read a little-endian 16-bit
pair starting at `index` (lower index holds the low byte). -/
def mem_pair (m : Nat → Nat) (index : Nat) : Nat :=
  m index % 256 + (m (index + 1) % 256) * 256

/-- Rust `set_pair`: write `value` little-endian at `index`, `index + 1`. -/
def mem_set_pair (m : Nat → Nat) (index value : Nat) : Nat → Nat :=
  fun j => if j = index then value % 256
    else if j = index + 1 then value / 256 % 256
    else m j

namespace ATmega32u4

/-- Rust `data_load`: the data-space load dispatch.  The Rust `match` takes the
first matching arm: `REGISTER_START..=REGISTER_SIZE` (i.e. `0..=32` — note
`REGISTER_SIZE`, not `REGISTER_END`) indexes `regs[addr]`, which panics for
`addr = 32`; I/O reads return 0; the extended-I/O range has no arm and
falls into `unreachable!()`.  `none` models the panics. -/
def data_load (st : ATmega32u4) (addr : Nat) : Option Nat :=
  if REGISTER_START ≤ addr ∧ addr ≤ REGISTER_SIZE then
    if h : addr - REGISTER_START < 32 then some (st.regs ⟨addr - REGISTER_START, h⟩)
    else none
  else if IO_REGISTER_START ≤ addr ∧ addr ≤ IO_REGISTER_END then some 0
  else if SRAM_START ≤ addr ∧ addr ≤ SRAM_END then some (st.sram (addr - SRAM_START))
  else none

/-- Rust `data_store`: the data-space store dispatch, same arms as `data_load`;
stores into the I/O range are discarded. -/
def data_store (st : ATmega32u4) (addr value : Nat) : Option ATmega32u4 :=
  if REGISTER_START ≤ addr ∧ addr ≤ REGISTER_SIZE then
    if h : addr - REGISTER_START < 32 then
      some { st with regs := Function.update st.regs ⟨addr - REGISTER_START, h⟩ value }
    else none
  else if IO_REGISTER_START ≤ addr ∧ addr ≤ IO_REGISTER_END then some st
  else if SRAM_START ≤ addr ∧ addr ≤ SRAM_END then
    some { st with sram := fun j => if j = addr - SRAM_START then value else st.sram j }
  else none

/-- Rust `helper_add_status_flags`: sets Z, V, N, S, H for ADD/ADC from the
operand bytes `d`, `r` and the `result` byte.  The carry argument `c` is
taken but unused, as in the source. -/
def helper_add_status_flags (st : ATmega32u4) (d r : Nat) (_c : Bool) (result : Nat) :
    ATmega32u4 :=
  let z := decide (result = 0)
  let v := (r.testBit 7 == d.testBit 7) && (r.testBit 7 != result.testBit 7)
  let n := result.testBit 7
  let s := n != v
  let h := d.testBit 3 && r.testBit 3 || r.testBit 3 && !result.testBit 3
    || !result.testBit 3 && d.testBit 3
  { st with status := { st.status with z := z, v := v, n := n, s := s, h := h } }

/-- Rust `do_adc` (ADC Rd,Rr): add with carry.  Flags are computed from the
pre-operation `regs[rd]`, `regs[rr]`; the result is written afterwards. -/
def do_adc (st : ATmega32u4) (rd rr : Fin 32) : ATmega32u4 × Nat :=
  let p0 := u8_add (st.regs rd) (st.regs rr)
  let p1 := u8_add p0.1 (if st.status.c then 1 else 0)
  let result := p1.1
  let c := p0.2 || p1.2
  let st1 := helper_add_status_flags st (st.regs rd) (st.regs rr) c result
  let st2 := { st1 with status := { st1.status with c := c } }
  let st3 := { st2 with regs := Function.update st2.regs rd result }
  ({ st3 with pc := st3.pc + 1 }, 1)

/-- Rust `do_add` (ADD Rd,Rr).  Note the source writes `regs[rd] = result`
*before* calling `helper_add_status_flags(self.regs[rd], self.regs[rr], …)`,
so the helper receives the result byte in place of the pre-operation `Rd`
(and, when `rd = rr`, in place of `Rr` as well). -/
def do_add (st : ATmega32u4) (rd rr : Fin 32) : ATmega32u4 × Nat :=
  let p := u8_add (st.regs rd) (st.regs rr)
  let result := p.1
  let c := p.2
  let st1 := { st with regs := Function.update st.regs rd result }
  let st2 := helper_add_status_flags st1 (st1.regs rd) (st1.regs rr) c result
  let st3 := { st2 with status := { st2.status with c := c } }
  ({ st3 with pc := st3.pc + 1 }, 1)

/-- Rust `do_adiw` (ADIW Rd+1:Rd,K): add immediate to the register pair at
index `rd`.  The source reads `regs.pair(rd)` (little-endian), which panics
when `rd + 1` is out of range (`none` here).  Flags are computed on
bit 15. -/
def do_adiw (st : ATmega32u4) (rd : Fin 32) (k : Nat) : Option (ATmega32u4 × Nat) :=
  if hpair : rd.val + 1 < 32 then
    let d := st.regs rd % 256 + st.regs ⟨rd.val + 1, hpair⟩ % 256 * 256
    let result := (d + k) % 65536
    let c := decide (65536 ≤ d + k)
    let regs1 := Function.update
      (Function.update st.regs rd (result % 256)) ⟨rd.val + 1, hpair⟩ (result / 256 % 256)
    let z := decide (result = 0)
    let v := !d.testBit 15 && result.testBit 15
    let n := result.testBit 15
    let s := n != v
    some ({ st with
      regs := regs1,
      status := { st.status with z := z, v := v, n := n, s := s, c := c },
      pc := st.pc + 1 }, 2)
  else none

/-- Rust `do_and` (AND Rd,Rr): logical AND.  Note the source sets the flags
from `result` but never writes `result` back to `regs[rd]`. -/
def do_and (st : ATmega32u4) (rd rr : Fin 32) : ATmega32u4 × Nat :=
  let result := Nat.land (st.regs rd) (st.regs rr)
  let v := false
  let n := result.testBit 7
  let s := n != v
  let z := decide (result = 0)
  ({ st with
    status := { st.status with v := v, n := n, s := s, z := z },
    pc := st.pc + 1 }, 1)

/-- Rust `do_andi` (ANDI Rd,K): logical AND with immediate; this one does
store the result. -/
def do_andi (st : ATmega32u4) (rd : Fin 32) (k : Nat) : ATmega32u4 × Nat :=
  let result := Nat.land (st.regs rd) k
  let v := false
  let n := result.testBit 7
  let s := n != v
  let z := decide (result = 0)
  ({ st with
    status := { st.status with v := v, n := n, s := s, z := z },
    regs := Function.update st.regs rd result,
    pc := st.pc + 1 }, 1)

/-- Rust `do_asr` (ASR Rd).  The source computes
`result = regs[rd] | (regs[rd] & 0b1000_0000)` (no shift), and assigns
`s = n != v` *before* reassigning `v = n != c`. -/
def do_asr (st : ATmega32u4) (rd : Fin 32) : ATmega32u4 × Nat :=
  let result := Nat.lor (st.regs rd) (Nat.land (st.regs rd) 0b10000000)
  let n := result.testBit 7
  let c := (st.regs rd).testBit 0
  let s := n != st.status.v
  let v := n != c
  let z := decide (result = 0)
  let st1 := { st with
    status := { st.status with n := n, c := c, s := s, v := v, z := z },
    regs := Function.update st.regs rd result }
  ({ st1 with pc := st1.pc + 1 }, 1)

/-- Rust `do_com` (COM Rd): one's complement, `0xFF - Rd`; C is forced
to 1. -/
def do_com (st : ATmega32u4) (rd : Fin 32) : ATmega32u4 × Nat :=
  let p := u8_sub 0xFF (st.regs rd)
  let result := p.1
  let n := result.testBit 7
  let v := false
  let s := n != v
  let z := decide (result = 0)
  ({ st with
    status := { st.status with n := n, c := true, v := v, s := s, z := z },
    regs := Function.update st.regs rd result,
    pc := st.pc + 1 }, 1)

/-- Rust `helper_cp_status_flags`: sets H, V, N, S for the compare family. -/
def helper_cp_status_flags (st : ATmega32u4) (d r result : Nat) : ATmega32u4 :=
  let h := !d.testBit 3 && r.testBit 3 || r.testBit 3 && result.testBit 3
    || result.testBit 3 && !d.testBit 3
  let v := d.testBit 7 && !r.testBit 7 && !result.testBit 7
    || !d.testBit 7 && r.testBit 7 && result.testBit 7
  let n := result.testBit 7
  let s := n != v
  { st with status := { st.status with h := h, v := v, n := n, s := s } }

/-- Rust `do_cp` (CP Rd,Rr): compare. -/
def do_cp (st : ATmega32u4) (rd rr : Fin 32) : ATmega32u4 × Nat :=
  let p := u8_sub (st.regs rd) (st.regs rr)
  let st1 := helper_cp_status_flags st (st.regs rd) (st.regs rr) p.1
  let st2 := { st1 with status := { st1.status with z := decide (p.1 = 0), c := p.2 } }
  ({ st2 with pc := st2.pc + 1 }, 1)

/-- Rust `do_cpc` (CPC Rd,Rr): compare with carry.  Z is only ever cleared:
`if result != 0 { z = false }`. -/
def do_cpc (st : ATmega32u4) (rd rr : Fin 32) : ATmega32u4 × Nat :=
  let p0 := u8_sub (st.regs rd) (st.regs rr)
  let p1 := u8_sub p0.1 (if st.status.c then 1 else 0)
  let result := p1.1
  let st1 := helper_cp_status_flags st (st.regs rd) (st.regs rr) result
  let st2 := if result ≠ 0 then { st1 with status := { st1.status with z := false } } else st1
  let st3 := { st2 with status := { st2.status with c := p0.2 || p1.2 } }
  ({ st3 with pc := st3.pc + 1 }, 1)

/-- Rust `do_cpi` (CPI Rd,K): compare with immediate. -/
def do_cpi (st : ATmega32u4) (rd : Fin 32) (k : Nat) : ATmega32u4 × Nat :=
  let p := u8_sub (st.regs rd) k
  let st1 := helper_cp_status_flags st (st.regs rd) k p.1
  let st2 := { st1 with status := { st1.status with z := decide (p.1 = 0), c := p.2 } }
  ({ st2 with pc := st2.pc + 1 }, 1)

/-- Rust `push_u16`: `sram.set_pair(sp - 1, value); sp -= 2`.  The low byte of
`value` lands at SRAM index `sp - 1` and the high byte at index `sp`. -/
def push_u16 (st : ATmega32u4) (value : Nat) : ATmega32u4 :=
  { st with
    sram := mem_set_pair st.sram (st.sp - 1) value,
    sp := st.sp - 2 }

/-- Rust `do_call` (CALL k): push the return address `pc + 2` (the CALL
instruction is two words) and jump to `k`.  `pc` is a `u16` in the source;
the wrap is written explicitly. -/
def do_call (st : ATmega32u4) (k : Nat) : ATmega32u4 × Nat :=
  let st1 := push_u16 st ((st.pc + 2) % 65536)
  ({ st1 with pc := k }, 5)

end ATmega32u4

/-! ## ssd1306.rs: display controller -/

def DISPLAY_WIDTH : Nat := 128
def DISPLAY_HEIGHT : Nat := 64
def DISPLAY_PIXELS : Nat := DISPLAY_WIDTH * DISPLAY_HEIGHT
def PAGE_SIZE : Nat := 8

inductive AddressingMode where
  | Horizontal
  | Vertical
  | Page
deriving DecidableEq, Repr

/-- The SSD1306 controller state, mirroring `struct SSD1306`.  The command
buffer holds the raw bytes pushed so far (the source stores each byte as a
bit array and loads bit ranges from it; here the loads are div/mod).
`vram` is the 128×64 bit RAM as a total function (the source's `bitvec`
would panic on an index ≥ 8192; the theorems stay in bounds). -/
structure SSD1306 where
  alternative_com : Bool
  com_remap : Bool
  ignore_ram : Bool
  inverted : Bool
  segment_remap : Bool
  sleeping : Bool
  addressing_mode : AddressingMode
  col : Nat
  column_end : Nat
  column_start : Nat
  contrast : Nat
  divide_ratio : Nat
  display_start_line : Nat
  multiplex_ratio : Nat
  oscillator_frequency : Nat
  page_end : Nat
  page_mode_column_start : Nat
  page_mode_page_start : Nat
  page_start : Nat
  page : Nat
  precharge_period : Nat
  vcomh_deselect_level : Nat
  vertical_shift : Nat
  command_buffer : List Nat
  vram : Nat → Bool

namespace SSD1306

/-- Rust `impl Default for SSD1306`: the power-on defaults. -/
def default : SSD1306 where
  alternative_com := true
  com_remap := false
  ignore_ram := false
  inverted := false
  segment_remap := false
  sleeping := false
  addressing_mode := AddressingMode.Page
  col := 0
  column_end := 0x7f
  column_start := 0
  contrast := 0x7f
  display_start_line := 0
  divide_ratio := 1
  multiplex_ratio := 64
  oscillator_frequency := 0x08
  page_end := 0x07
  page_mode_column_start := 0
  page_mode_page_start := 0
  page_start := 0
  page := 0
  precharge_period := 0x22
  vcomh_deselect_level := 0x20
  vertical_shift := 0
  command_buffer := []
  vram := fun _ => false

/-- Rust `iter()`: the per-pixel readout filter is selected once from the
mode bits, then mapped over the 8192 VRAM bits in index order. -/
def iterFilter (st : SSD1306) : Bool → Bool :=
  if st.sleeping then fun _ => false
  else if st.ignore_ram then fun _ => true
  else if st.inverted then fun b => !b
  else fun b => b

/-- The sequence produced by `iter()`, as a list of 8192 booleans. -/
def displayIter (st : SSD1306) : List Bool :=
  (List.range DISPLAY_PIXELS).map (fun idx => st.iterFilter (st.vram idx))

/-- Rust `set_pixel`: `vram.set(y * DISPLAY_WIDTH + x, value)`. -/
def set_pixel (st : SSD1306) (x y : Nat) (value : Bool) : SSD1306 :=
  { st with vram := fun idx => if idx = y * DISPLAY_WIDTH + x then value else st.vram idx }

/-- The `AddressingMode::Page` arm of the cursor advance in `push_data`:
`col += 1; if col >= DISPLAY_WIDTH { col = page_mode_column_start }`. -/
def page_mode_advance (st : SSD1306) : SSD1306 :=
  let st2 := { st with col := st.col + 1 }
  if DISPLAY_WIDTH ≤ st2.col then { st2 with col := st2.page_mode_column_start }
  else st2

/-- The `AddressingMode::Horizontal` arm of the cursor advance in
`push_data`. -/
def horizontal_mode_advance (st : SSD1306) : SSD1306 :=
  let st2 := { st with col := st.col + 1 }
  if st2.column_end < st2.col then
    let st3 := { st2 with col := st2.column_start, page := st2.page + 1 }
    if st3.page_end < st3.page then { st3 with page := st3.page_start } else st3
  else st2

/-- The `AddressingMode::Vertical` arm of the cursor advance in
`push_data`. -/
def vertical_mode_advance (st : SSD1306) : SSD1306 :=
  let st2 := { st with page := st.page + 1 }
  if st2.page_end < st2.page then
    let st3 := { st2 with page := st2.page_start, col := st2.col + 1 }
    if st3.column_end < st3.col then { st3 with col := st3.column_start } else st3
  else st2

/-- Rust `push_data`: write the 8 bits of `data` as a vertical pixel column at
the current `(col, page)` (`y = (page+1)*8 - 1`, bit `i` to row `y - i`),
then advance the cursor per the addressing mode (the source inlines the
three `*_mode_advance` arms in its `match`). -/
def push_data (st : SSD1306) (data : Nat) : SSD1306 :=
  let y := (st.page + 1) * PAGE_SIZE - 1
  let st1 := (List.range 8).foldl
    (fun s i => set_pixel s st.col (y - i) (data.testBit i)) st
  match st1.addressing_mode with
  | AddressingMode.Page => page_mode_advance st1
  | AddressingMode.Horizontal => horizontal_mode_advance st1
  | AddressingMode.Vertical => vertical_mode_advance st1

/-- Byte 0 of the command buffer (present whenever dispatch runs). -/
def buf0 (st : SSD1306) : Nat := st.command_buffer.headD 0

/-- Byte `k` of the command buffer; the source indexes `command_buffer[k]`
only at positions the length table guarantees to exist. -/
def bufAt (st : SSD1306) (k : Nat) : Nat := st.command_buffer.getD k 0

/-- Rust `command_length`: command length from the first buffered byte. -/
def command_length (st : SSD1306) : Nat :=
  match st.buf0 with
  | 0x81 => 2
  | 0x26 => 7
  | 0x27 => 7
  | 0x29 => 6
  | 0x2A => 6
  | 0xa3 => 3
  | 0x20 => 2
  | 0x21 => 3
  | 0x22 => 3
  | 0xa8 => 2
  | 0xd3 => 2
  | 0xda => 2
  | 0xd5 => 2
  | 0xd9 => 2
  | 0xdb => 2
  | _ => 1

def set_contrast_control (st : SSD1306) : SSD1306 :=
  { st with contrast := st.bufAt 1 }

def entire_display_on (st : SSD1306) : SSD1306 :=
  { st with ignore_ram := (st.buf0).testBit 0 }

def set_normal_inverse_display (st : SSD1306) : SSD1306 :=
  { st with inverted := (st.buf0).testBit 0 }

def set_display_on_off (st : SSD1306) : SSD1306 :=
  { st with sleeping := !(st.buf0).testBit 0 }

def set_lower_column_start_address_for_paging_address_mode (st : SSD1306) : SSD1306 :=
  let pmcs := Nat.lor (Nat.land st.page_mode_column_start 0xF0) (st.buf0 % 16)
  { st with page_mode_column_start := pmcs, col := pmcs }

def set_higher_column_start_address_for_paging_address_mode (st : SSD1306) : SSD1306 :=
  { st with page_mode_column_start :=
      Nat.lor (Nat.land st.page_mode_column_start 0x0F) (st.buf0 % 16 * 16) }

/-- Rust `set_memory_addressing_mode`: the low two bits of the parameter select
the mode; the value 3 panics. -/
def set_memory_addressing_mode (st : SSD1306) : Option SSD1306 :=
  match st.bufAt 1 % 4 with
  | 0 => some { st with addressing_mode := AddressingMode.Horizontal }
  | 1 => some { st with addressing_mode := AddressingMode.Vertical }
  | 2 => some { st with addressing_mode := AddressingMode.Page }
  | _ => none

def set_column_address (st : SSD1306) : SSD1306 :=
  let cs := st.bufAt 1 % 128
  { st with column_start := cs, column_end := st.bufAt 2 % 128, col := cs }

def set_page_address (st : SSD1306) : SSD1306 :=
  let ps := st.bufAt 1 % 8
  { st with page_start := ps, page_end := st.bufAt 2 % 8, page := ps }

def set_page_start_address_for_page_addressing_mode (st : SSD1306) : SSD1306 :=
  let ps := st.buf0 % 8
  { st with page_mode_page_start := ps, page := ps }

def set_display_start_line (st : SSD1306) : SSD1306 :=
  { st with display_start_line := st.buf0 % 64 }

def set_segment_remap (st : SSD1306) : SSD1306 :=
  { st with segment_remap := (st.buf0).testBit 0 }

/-- Rust `set_multiplex_ratio`: the 6-bit parameter `a` is accepted only for
`15 ≤ a ≤ 63`, storing ratio `a + 1`; anything else panics. -/
def set_multiplex_ratio (st : SSD1306) : Option SSD1306 :=
  let a := st.bufAt 1 % 64
  if 15 ≤ a ∧ a ≤ 63 then some { st with multiplex_ratio := a + 1 } else none

def set_com_output_scan_direction (st : SSD1306) : SSD1306 :=
  { st with com_remap := (st.buf0).testBit 3 }

def set_display_offset (st : SSD1306) : SSD1306 :=
  { st with vertical_shift := st.bufAt 1 % 64 }

def set_com_pins_hardware_configuration (st : SSD1306) : SSD1306 :=
  { st with alternative_com := (st.bufAt 1).testBit 4, com_remap := (st.bufAt 1).testBit 5 }

def set_display_clock_divide_ratio (st : SSD1306) : SSD1306 :=
  { st with
    divide_ratio := st.bufAt 1 % 16 + 1,
    oscillator_frequency := st.bufAt 1 / 16 % 16 }

/-- Rust `set_precharge_period`: panics when either nibble of the parameter
is 0. -/
def set_precharge_period (st : SSD1306) : Option SSD1306 :=
  if st.bufAt 1 % 16 = 0 ∨ st.bufAt 1 / 16 % 16 = 0 then none
  else some { st with precharge_period := st.bufAt 1 % 256 }

def set_vcomh_deselect_level (st : SSD1306) : SSD1306 :=
  { st with vcomh_deselect_level := st.bufAt 1 / 16 % 8 }

/-- Rust `dispatch_command`: dispatch on the first buffered byte, in the arm
order of the source `match`.  The scrolling commands only log and leave the
state alone; an unknown first byte panics (`none`). -/
def dispatch_command (st : SSD1306) : Option SSD1306 :=
  let cmd := st.buf0
  if cmd = 0x81 then some (set_contrast_control st)
  else if cmd = 0xa4 ∨ cmd = 0xa5 then some (entire_display_on st)
  else if cmd = 0xa6 ∨ cmd = 0xa7 then some (set_normal_inverse_display st)
  else if cmd = 0xae ∨ cmd = 0xaf then some (set_display_on_off st)
  else if cmd = 0x26 ∨ cmd = 0x27 ∨ cmd = 0x29 ∨ cmd = 0x2a ∨ cmd = 0x2e ∨ cmd = 0x2f
      ∨ cmd = 0xa3 then some st
  else if cmd ≤ 0x0f then some (set_lower_column_start_address_for_paging_address_mode st)
  else if 0x10 ≤ cmd ∧ cmd ≤ 0x1f then
    some (set_higher_column_start_address_for_paging_address_mode st)
  else if cmd = 0x20 then set_memory_addressing_mode st
  else if cmd = 0x21 then some (set_column_address st)
  else if cmd = 0x22 then some (set_page_address st)
  else if 0xb0 ≤ cmd ∧ cmd ≤ 0xb7 then
    some (set_page_start_address_for_page_addressing_mode st)
  else if 0x40 ≤ cmd ∧ cmd ≤ 0x7f then some (set_display_start_line st)
  else if cmd = 0xa0 ∨ cmd = 0xa1 then some (set_segment_remap st)
  else if cmd = 0xa8 then set_multiplex_ratio st
  else if cmd = 0xc0 ∨ cmd = 0xc8 then some (set_com_output_scan_direction st)
  else if cmd = 0xd3 then some (set_display_offset st)
  else if cmd = 0xda then some (set_com_pins_hardware_configuration st)
  else if cmd = 0xd5 then some (set_display_clock_divide_ratio st)
  else if cmd = 0xd9 then set_precharge_period st
  else if cmd = 0xdb then some (set_vcomh_deselect_level st)
  else if cmd = 0xe3 then some st
  else none

/-- Rust `push_command`: append the byte; when the buffer reaches the length
the first byte demands, dispatch and clear the buffer. -/
def push_command (st : SSD1306) (data : Nat) : Option SSD1306 :=
  let st1 := { st with command_buffer := st.command_buffer ++ [data] }
  if st1.command_buffer.length = st1.command_length then
    match dispatch_command st1 with
    | some st2 => some { st2 with command_buffer := [] }
    | none => none
  else some st1

end SSD1306

/-! ## arduboy.rs: the device façade -/

inductive Button where
  | A
  | B
  | Up
  | Down
  | Left
  | Right
deriving DecidableEq, Repr

structure ButtonState where
  a : Bool
  b : Bool
  up : Bool
  down : Bool
  left : Bool
  right : Bool
deriving DecidableEq, Repr

def ButtonState.default : ButtonState :=
  ⟨false, false, false, false, false, false⟩

/-- Read the latch selected by `button`. -/
def ButtonState.get (bs : ButtonState) (button : Button) : Bool :=
  match button with
  | Button.A => bs.a
  | Button.B => bs.b
  | Button.Up => bs.up
  | Button.Down => bs.down
  | Button.Left => bs.left
  | Button.Right => bs.right

structure Arduboy where
  button_state : ButtonState
  display : SSD1306
  test_inited : Bool

def Arduboy.default : Arduboy :=
  ⟨ButtonState.default, SSD1306.default, false⟩

def TEST_COMMANDS : List Nat := [0x20, 0x00]
def TEST_DATA : List Nat := [0x01, 0x03, 0x07, 0x0F, 0x1F, 0x3F, 0x7F, 0xFF]

namespace Arduboy

/-- Rust `execute`: on the first call, push `TEST_COMMANDS` to the display and
latch `test_inited`; every call then pushes the eight `TEST_DATA` bytes.
Returns `Ok(())` unless a display panic occurs (`none`). -/
def execute (ab : Arduboy) : Option Arduboy :=
  let init : Option Arduboy :=
    if ab.test_inited then some ab
    else
      match TEST_COMMANDS.foldlM SSD1306.push_command ab.display with
      | some d => some { ab with display := d, test_inited := true }
      | none => none
  match init with
  | some ab1 => some { ab1 with display := TEST_DATA.foldl SSD1306.push_data ab1.display }
  | none => none

/-- Rust `execute_for_a_frame`: runs `execute` once (a `// TODO` stub). -/
def execute_for_a_frame (ab : Arduboy) : Option Arduboy :=
  execute ab

/-- Rust `set_button`: write `state` into the latch selected by `button`. -/
def set_button (ab : Arduboy) (button : Button) (state : Bool) : Arduboy :=
  match button with
  | Button.A => { ab with button_state := { ab.button_state with a := state } }
  | Button.B => { ab with button_state := { ab.button_state with b := state } }
  | Button.Up => { ab with button_state := { ab.button_state with up := state } }
  | Button.Down => { ab with button_state := { ab.button_state with down := state } }
  | Button.Left => { ab with button_state := { ab.button_state with left := state } }
  | Button.Right => { ab with button_state := { ab.button_state with right := state } }

end Arduboy

/-! ## Concrete machine fixtures used by the boundary theorems -/

/-- A CPU state with everything zeroed: the base point for the concrete
counterexample evaluations. -/
def cpuZero : ATmega32u4 :=
  { program_memory := fun _ => 0, regs := fun _ => 0, sram := fun _ => 0,
    eeprom := fun _ => 0, pc := 0, sp := 0,
    status := ⟨false, false, false, false, false, false, false, false⟩ }

/-- CPU with `r0 = 0x7F`, `r1 = 0x01` (the ADD overflow boundary). -/
def cpuAdd7f01 : ATmega32u4 :=
  { cpuZero with regs := fun i => if i = 0 then 0x7F else if i = 1 then 0x01 else 0 }

/-- CPU with `r0 = 0x01` (ASR carry boundary), all flags clear. -/
def cpuAsrOne : ATmega32u4 :=
  { cpuZero with regs := fun i => if i = 0 then 1 else 0 }

/-- CPU with `r0 = 0x02` (ASR shift check). -/
def cpuAsrTwo : ATmega32u4 :=
  { cpuZero with regs := fun i => if i = 0 then 2 else 0 }

/-- CPU about to CALL: `pc = 5`, `sp = 0x09FF` (inside SRAM). -/
def cpuCall : ATmega32u4 :=
  { cpuZero with pc := 5, sp := 0x09FF }

/-- CPU for the CPC witness: `r0 = r1 = 5`, `Z` already set, `C` clear. -/
def cpuCpc : ATmega32u4 :=
  { cpuZero with
    regs := fun i => if i = 0 then 5 else if i = 1 then 5 else 0,
    status := ⟨false, false, false, false, false, false, true, false⟩ }

/-- CPU with `r0 = 0xFF`, `r1 = 0x01` (the ADC carry/half-carry boundary
from the spec), carry clear. -/
def cpuAdcFf01 : ATmega32u4 :=
  { cpuZero with regs := fun i => if i = 0 then 0xFF else if i = 1 then 0x01 else 0 }

/-- The device state after one `execute_for_a_frame` on a fresh `Arduboy`
(`getD` is harmless: the run succeeds). -/
def afterFrame : Arduboy :=
  (Arduboy.execute_for_a_frame Arduboy.default).getD Arduboy.default

/-- The `display_iter()` output after one frame on a fresh device. -/
def displayAfterFrame : List Bool :=
  afterFrame.display.displayIter

/-! ## Helper lemmas about the SSD1306 pixel fold and page-mode advance -/

namespace SSD1306

theorem vram_set_pixel (st : SSD1306) (x y : Nat) (v : Bool) (idx : Nat) :
    (set_pixel st x y v).vram idx = if idx = y * DISPLAY_WIDTH + x then v else st.vram idx :=
  rfl

theorem pixelFold_col (c y : Nat) (f : Nat → Bool) : ∀ (l : List Nat) (st : SSD1306),
    (l.foldl (fun s j => set_pixel s c (y - j) (f j)) st).col = st.col := by
  intro l
  induction l with
  | nil => intro st; rfl
  | cons a l ih => intro st; exact ih (set_pixel st c (y - a) (f a))

theorem pixelFold_page (c y : Nat) (f : Nat → Bool) : ∀ (l : List Nat) (st : SSD1306),
    (l.foldl (fun s j => set_pixel s c (y - j) (f j)) st).page = st.page := by
  intro l
  induction l with
  | nil => intro st; rfl
  | cons a l ih => intro st; exact ih (set_pixel st c (y - a) (f a))

theorem pixelFold_mode (c y : Nat) (f : Nat → Bool) : ∀ (l : List Nat) (st : SSD1306),
    (l.foldl (fun s j => set_pixel s c (y - j) (f j)) st).addressing_mode
      = st.addressing_mode := by
  intro l
  induction l with
  | nil => intro st; rfl
  | cons a l ih => intro st; exact ih (set_pixel st c (y - a) (f a))

theorem pixelFold_pmcs (c y : Nat) (f : Nat → Bool) : ∀ (l : List Nat) (st : SSD1306),
    (l.foldl (fun s j => set_pixel s c (y - j) (f j)) st).page_mode_column_start
      = st.page_mode_column_start := by
  intro l
  induction l with
  | nil => intro st; rfl
  | cons a l ih => intro st; exact ih (set_pixel st c (y - a) (f a))

theorem pixelFold_vram_untouched (c y : Nat) (f : Nat → Bool) :
    ∀ (l : List Nat) (st : SSD1306) (idx : Nat),
      (∀ j ∈ l, idx ≠ (y - j) * DISPLAY_WIDTH + c) →
      (l.foldl (fun s j => set_pixel s c (y - j) (f j)) st).vram idx = st.vram idx := by
  intro l
  induction l with
  | nil => intro st idx _; rfl
  | cons a l ih =>
    intro st idx h
    rw [List.foldl_cons, ih _ idx (fun j hj => h j (List.mem_cons_of_mem a hj)),
      vram_set_pixel, if_neg (h a (List.mem_cons_self a l))]

theorem pixelFold_vram_hit (c y : Nat) (f : Nat → Bool) :
    ∀ (l : List Nat) (st : SSD1306) (i : Nat), i ∈ l → i ≤ y → (∀ j ∈ l, j ≤ y) →
      (l.foldl (fun s j => set_pixel s c (y - j) (f j)) st).vram
        ((y - i) * DISPLAY_WIDTH + c) = f i := by
  intro l
  induction l with
  | nil => intro st i hmem; cases hmem
  | cons a l ih =>
    intro st i hmem hiy hb
    rw [List.foldl_cons]
    by_cases hl : i ∈ l
    · exact ih _ i hl hiy (fun j hj => hb j (List.mem_cons_of_mem a hj))
    · have hia : i = a := by
        rcases List.mem_cons.mp hmem with h | h
        · exact h
        · exact absurd h hl
      subst hia
      have huntouched : ∀ j ∈ l, (y - i) * DISPLAY_WIDTH + c ≠ (y - j) * DISPLAY_WIDTH + c := by
        intro j hj heq
        have hjy : j ≤ y := hb j (List.mem_cons_of_mem i hj)
        have hij : i = j := by
          simp only [DISPLAY_WIDTH] at heq
          omega
        exact hl (hij ▸ hj)
      rw [pixelFold_vram_untouched c y f l _ _ huntouched, vram_set_pixel, if_pos rfl]

theorem push_data_page_eq (st : SSD1306) (b : Nat)
    (hmode : st.addressing_mode = AddressingMode.Page) :
    st.push_data b = page_mode_advance
      ((List.range 8).foldl
        (fun s i => set_pixel s st.col ((st.page + 1) * PAGE_SIZE - 1 - i) (b.testBit i))
        st) := by
  simp only [push_data]
  rw [pixelFold_mode, hmode]

theorem page_mode_advance_col (st : SSD1306) :
    (page_mode_advance st).col =
      if DISPLAY_WIDTH ≤ st.col + 1 then st.page_mode_column_start else st.col + 1 := by
  simp only [page_mode_advance]
  split_ifs <;> rfl

theorem page_mode_advance_page (st : SSD1306) :
    (page_mode_advance st).page = st.page := by
  simp only [page_mode_advance]
  split_ifs <;> rfl

theorem page_mode_advance_mode (st : SSD1306) :
    (page_mode_advance st).addressing_mode = st.addressing_mode := by
  simp only [page_mode_advance]
  split_ifs <;> rfl

theorem page_mode_advance_pmcs (st : SSD1306) :
    (page_mode_advance st).page_mode_column_start = st.page_mode_column_start := by
  simp only [page_mode_advance]
  split_ifs <;> rfl

theorem page_mode_advance_vram (st : SSD1306) :
    (page_mode_advance st).vram = st.vram := by
  simp only [page_mode_advance]
  split_ifs <;> rfl

theorem push_data_page_col (st : SSD1306) (b : Nat)
    (hmode : st.addressing_mode = AddressingMode.Page) :
    (st.push_data b).col =
      if DISPLAY_WIDTH ≤ st.col + 1 then st.page_mode_column_start else st.col + 1 := by
  rw [push_data_page_eq st b hmode, page_mode_advance_col, pixelFold_col, pixelFold_pmcs]

theorem push_data_page_page (st : SSD1306) (b : Nat)
    (hmode : st.addressing_mode = AddressingMode.Page) :
    (st.push_data b).page = st.page := by
  rw [push_data_page_eq st b hmode, page_mode_advance_page, pixelFold_page]

theorem push_data_page_mode (st : SSD1306) (b : Nat)
    (hmode : st.addressing_mode = AddressingMode.Page) :
    (st.push_data b).addressing_mode = AddressingMode.Page := by
  rw [push_data_page_eq st b hmode, page_mode_advance_mode, pixelFold_mode, hmode]

theorem push_data_page_pmcs (st : SSD1306) (b : Nat)
    (hmode : st.addressing_mode = AddressingMode.Page) :
    (st.push_data b).page_mode_column_start = st.page_mode_column_start := by
  rw [push_data_page_eq st b hmode, page_mode_advance_pmcs, pixelFold_pmcs]

/-- Page mode: a run of pushes that ends exactly at column 128 parks the
column at `page_mode_column_start` and never touches the page. -/
theorem pageFold_col_page (bs : List Nat) : ∀ st : SSD1306,
    st.addressing_mode = AddressingMode.Page →
    st.col + bs.length = 128 → bs ≠ [] →
    (bs.foldl push_data st).col = st.page_mode_column_start
    ∧ (bs.foldl push_data st).page = st.page := by
  induction bs with
  | nil => intro st _ _ hne; exact absurd rfl hne
  | cons a l ih =>
    intro st hmode hlen _
    rw [List.foldl_cons]
    by_cases hl : l = []
    · subst hl
      simp only [List.foldl_nil]
      have hc : st.col = 127 := by
        simp only [List.length_cons, List.length_nil] at hlen
        omega
      refine ⟨?_, push_data_page_page st a hmode⟩
      rw [push_data_page_col st a hmode, hc]
      norm_num [DISPLAY_WIDTH]
    · have hll : 0 < l.length := List.length_pos.mpr hl
      have hlen' : (st.push_data a).col + l.length = 128 := by
        rw [push_data_page_col st a hmode]
        simp only [List.length_cons] at hlen
        rw [if_neg (by simp only [DISPLAY_WIDTH]; omega)]
        omega
      have ih' := ih (st.push_data a) (push_data_page_mode st a hmode) hlen' hl
      refine ⟨?_, ?_⟩
      · rw [ih'.1, push_data_page_pmcs st a hmode]
      · rw [ih'.2, push_data_page_page st a hmode]

end SSD1306

/-! ## The S = N XOR V discipline outside ASR

Every flag-writing opcode other than `do_asr` recomputes S after N and V,
so for them the S = N XOR V invariant holds by construction; these lemmas
document that the C2 violation is specific to `do_asr`. -/

theorem do_adc_s_eq_n_xor_v (st : ATmega32u4) (rd rr : Fin 32) :
    (ATmega32u4.do_adc st rd rr).1.status.s
      = ((ATmega32u4.do_adc st rd rr).1.status.n
        != (ATmega32u4.do_adc st rd rr).1.status.v) := rfl

theorem do_add_s_eq_n_xor_v (st : ATmega32u4) (rd rr : Fin 32) :
    (ATmega32u4.do_add st rd rr).1.status.s
      = ((ATmega32u4.do_add st rd rr).1.status.n
        != (ATmega32u4.do_add st rd rr).1.status.v) := rfl

theorem do_adiw_s_eq_n_xor_v (st : ATmega32u4) (rd : Fin 32) (k : Nat)
    (res : ATmega32u4 × Nat) (hres : ATmega32u4.do_adiw st rd k = some res) :
    res.1.status.s = (res.1.status.n != res.1.status.v) := by
  unfold ATmega32u4.do_adiw at hres
  split_ifs at hres
  cases hres
  rfl

theorem do_and_s_eq_n_xor_v (st : ATmega32u4) (rd rr : Fin 32) :
    (ATmega32u4.do_and st rd rr).1.status.s
      = ((ATmega32u4.do_and st rd rr).1.status.n
        != (ATmega32u4.do_and st rd rr).1.status.v) := rfl

theorem do_andi_s_eq_n_xor_v (st : ATmega32u4) (rd : Fin 32) (k : Nat) :
    (ATmega32u4.do_andi st rd k).1.status.s
      = ((ATmega32u4.do_andi st rd k).1.status.n
        != (ATmega32u4.do_andi st rd k).1.status.v) := rfl

theorem do_com_s_eq_n_xor_v (st : ATmega32u4) (rd : Fin 32) :
    (ATmega32u4.do_com st rd).1.status.s
      = ((ATmega32u4.do_com st rd).1.status.n
        != (ATmega32u4.do_com st rd).1.status.v) := rfl

theorem do_cp_s_eq_n_xor_v (st : ATmega32u4) (rd rr : Fin 32) :
    (ATmega32u4.do_cp st rd rr).1.status.s
      = ((ATmega32u4.do_cp st rd rr).1.status.n
        != (ATmega32u4.do_cp st rd rr).1.status.v) := rfl

theorem do_cpc_s_eq_n_xor_v (st : ATmega32u4) (rd rr : Fin 32) :
    (ATmega32u4.do_cpc st rd rr).1.status.s
      = ((ATmega32u4.do_cpc st rd rr).1.status.n
        != (ATmega32u4.do_cpc st rd rr).1.status.v) := by
  simp only [ATmega32u4.do_cpc, u8_sub, ATmega32u4.helper_cp_status_flags]
  split_ifs <;> rfl

theorem do_cpi_s_eq_n_xor_v (st : ATmega32u4) (rd : Fin 32) (k : Nat) :
    (ATmega32u4.do_cpi st rd k).1.status.s
      = ((ATmega32u4.do_cpi st rd k).1.status.n
        != (ATmega32u4.do_cpi st rd k).1.status.v) := rfl

/-- Boundary check from the spec, supporting C1: ADC 0xFF + 0x01 with C=0
yields result 0x00 with C=1, Z=1, H=1, N=0, V=0, S=0 — the code's ADC path
matches the datasheet here. -/
theorem do_adc_ff_plus_one_boundary :
    (ATmega32u4.do_adc cpuAdcFf01 0 1).1.regs 0 = 0
    ∧ (ATmega32u4.do_adc cpuAdcFf01 0 1).1.status.c = true
    ∧ (ATmega32u4.do_adc cpuAdcFf01 0 1).1.status.z = true
    ∧ (ATmega32u4.do_adc cpuAdcFf01 0 1).1.status.h = true
    ∧ (ATmega32u4.do_adc cpuAdcFf01 0 1).1.status.n = false
    ∧ (ATmega32u4.do_adc cpuAdcFf01 0 1).1.status.v = false
    ∧ (ATmega32u4.do_adc cpuAdcFf01 0 1).1.status.s = false := by decide

/-! ## Claim theorems -/

/-- C3: In Page addressing mode, `push_data b` writes bit `i` of `b` to
VRAM index `((page+1)·8 − 1 − i)·128 + col`, increments `col` by 1
(wrapping to `page_mode_column_start` when it reaches 128), leaves `page`
unchanged, and hence 128 consecutive pushes starting from `col = 0` return
`col` to `page_mode_column_start` with `page` unchanged. -/
theorem push_data_page_mode_spec (st : SSD1306) (b : Nat)
    (hmode : st.addressing_mode = AddressingMode.Page)
    (hcol : st.col < 128) (hpage : st.page < 8) :
    (∀ i, i < 8 →
      (st.push_data b).vram (((st.page + 1) * 8 - 1 - i) * 128 + st.col) = b.testBit i)
    ∧ (st.push_data b).col =
        (if st.col + 1 < 128 then st.col + 1 else st.page_mode_column_start)
    ∧ (st.push_data b).page = st.page
    ∧ (∀ bs : List Nat, bs.length = 128 → st.col = 0 →
        (bs.foldl SSD1306.push_data st).col = st.page_mode_column_start
        ∧ (bs.foldl SSD1306.push_data st).page = st.page) := by
  refine ⟨?_, ?_, SSD1306.push_data_page_page st b hmode, ?_⟩
  · intro i hi
    rw [SSD1306.push_data_page_eq st b hmode, SSD1306.page_mode_advance_vram]
    have hhit := SSD1306.pixelFold_vram_hit st.col ((st.page + 1) * PAGE_SIZE - 1) b.testBit
      (List.range 8) st i (List.mem_range.mpr hi)
      (by simp only [PAGE_SIZE]; omega)
      (fun j hj => by
        have := List.mem_range.mp hj
        simp only [PAGE_SIZE]; omega)
    simpa only [PAGE_SIZE, DISPLAY_WIDTH] using hhit
  · rw [SSD1306.push_data_page_col st b hmode]
    split_ifs <;> first | rfl | (simp only [DISPLAY_WIDTH] at *; omega)
  · intro bs hlen hcol0
    exact SSD1306.pageFold_col_page bs st hmode (by rw [hcol0, hlen]) (by
      intro h
      rw [h] at hlen
      simp at hlen)

/-- Witness for C3: the Page-mode push contract instantiated on the
power-on display state with data byte `0xFF`. -/
theorem push_data_page_mode_spec_witness :
    (∀ i, i < 8 →
      (SSD1306.default.push_data 0xFF).vram
        (((SSD1306.default.page + 1) * 8 - 1 - i) * 128 + SSD1306.default.col)
        = Nat.testBit 0xFF i)
    ∧ (SSD1306.default.push_data 0xFF).col =
        (if SSD1306.default.col + 1 < 128 then SSD1306.default.col + 1
         else SSD1306.default.page_mode_column_start)
    ∧ (SSD1306.default.push_data 0xFF).page = SSD1306.default.page
    ∧ (∀ bs : List Nat, bs.length = 128 → SSD1306.default.col = 0 →
        (bs.foldl SSD1306.push_data SSD1306.default).col
          = SSD1306.default.page_mode_column_start
        ∧ (bs.foldl SSD1306.push_data SSD1306.default).page = SSD1306.default.page) :=
  push_data_page_mode_spec SSD1306.default 0xFF rfl (by decide) (by decide)


/-- C9: Pushing command `0xA8` followed by a parameter byte faults
(`InvalidDisplayParameter`, modelled as `none`) exactly when the 6-bit
parameter value is below 15; otherwise it is accepted and stores multiplex
ratio `a + 1`, which always lies in `16..64`. -/
theorem multiplex_ratio_spec (st : SSD1306) (p : Nat)
    (hbuf : st.command_buffer = []) :
    ((SSD1306.push_command st 0xA8).bind (fun s => SSD1306.push_command s p) = none
        ↔ p % 64 < 15)
    ∧ (15 ≤ p % 64 →
        ∃ st2, (SSD1306.push_command st 0xA8).bind (fun s => SSD1306.push_command s p)
            = some st2
          ∧ st2.multiplex_ratio = p % 64 + 1
          ∧ 16 ≤ st2.multiplex_ratio ∧ st2.multiplex_ratio ≤ 64) := by
  have h1 : SSD1306.push_command st 0xA8 = some { st with command_buffer := [0xA8] } := by
    simp [SSD1306.push_command, SSD1306.command_length, SSD1306.buf0, hbuf]
  have hcomp : SSD1306.push_command { st with command_buffer := [0xA8] } p =
      if 15 ≤ p % 64 ∧ p % 64 ≤ 63 then
        some { st with command_buffer := [], multiplex_ratio := p % 64 + 1 }
      else none := by
    simp only [SSD1306.push_command, SSD1306.command_length, SSD1306.buf0, SSD1306.bufAt,
      SSD1306.dispatch_command, SSD1306.set_multiplex_ratio]
    norm_num
    split_ifs <;> rfl
  have hlt : p % 64 < 64 := Nat.mod_lt _ (by norm_num)
  rw [h1, Option.some_bind, hcomp]
  refine ⟨⟨?_, ?_⟩, ?_⟩
  · intro h
    by_contra hc
    push_neg at hc
    rw [if_pos ⟨hc, by omega⟩] at h
    cases h
  · intro h
    rw [if_neg (by omega)]
  · intro hp
    rw [if_pos ⟨hp, by omega⟩]
    refine ⟨_, rfl, rfl, ?_, ?_⟩
    · show 16 ≤ p % 64 + 1
      omega
    · show p % 64 + 1 ≤ 64
      omega

/-- Witness for C9: the multiplex-ratio contract instantiated on the
power-on display state with parameter `0x0A`. -/
theorem multiplex_ratio_spec_witness :
    ((SSD1306.push_command SSD1306.default 0xA8).bind
        (fun s => SSD1306.push_command s 0x0A) = none ↔ 0x0A % 64 < 15)
    ∧ (15 ≤ 0x0A % 64 →
        ∃ st2, (SSD1306.push_command SSD1306.default 0xA8).bind
            (fun s => SSD1306.push_command s 0x0A) = some st2
          ∧ st2.multiplex_ratio = 0x0A % 64 + 1
          ∧ 16 ≤ st2.multiplex_ratio ∧ st2.multiplex_ratio ≤ 64) :=
  multiplex_ratio_spec SSD1306.default 0x0A rfl

/-- C10: `set_button b s` always succeeds, sets exactly the latch for `b`
to `s`, and leaves the other five latches, the entire display state and the
`test_inited` flag unchanged. -/
theorem set_button_spec (ab : Arduboy) (btn : Button) (s : Bool) :
    (∀ b2 : Button, (Arduboy.set_button ab btn s).button_state.get b2
        = if b2 = btn then s else ab.button_state.get b2)
    ∧ (Arduboy.set_button ab btn s).display = ab.display
    ∧ (Arduboy.set_button ab btn s).test_inited = ab.test_inited := by
  refine ⟨?_, ?_, ?_⟩
  · intro b2
    cases btn <;> cases b2 <;> simp [Arduboy.set_button, ButtonState.get]
  · cases btn <;> rfl
  · cases btn <;> rfl

set_option maxRecDepth 2000 in
/-- C8 counterexample: on a fresh device one `execute_for_a_frame` does
NOT leave the display all-false — `execute()` pushes a built-in test
pattern, so the readout differs from 8192 falses (pixel (y=7, x=0),
index 896, is lit). -/
theorem first_frame_display_not_blank :
    displayAfterFrame ≠ List.replicate 8192 false := by
  intro h
  have h896 : displayAfterFrame[896]? = some true := by
    have hlt : (896 : Nat) < DISPLAY_PIXELS := by
      norm_num [DISPLAY_PIXELS, DISPLAY_WIDTH, DISPLAY_HEIGHT]
    simp only [displayAfterFrame, SSD1306.displayIter, List.getElem?_map,
      List.getElem?_range hlt, Option.map_some]
    decide
  rw [h, List.getElem?_replicate_of_lt (by norm_num)] at h896
  exact Bool.false_ne_true (Option.some.inj h896)

set_option maxRecDepth 2000 in
/-- C8 (amended): on a fresh device with no program loaded, one
`execute_for_a_frame` returns success and `display_iter()` yields exactly
8192 booleans, but they are not all false: the built-in first-frame test
pattern lights pixel index 896 (row 7, column 0) while e.g. index 0 stays
false. -/
theorem first_frame_success_and_pattern :
    (Arduboy.execute_for_a_frame Arduboy.default).isSome = true
    ∧ displayAfterFrame.length = 8192
    ∧ displayAfterFrame[896]? = some true
    ∧ displayAfterFrame[0]? = some false := by
  have hlen : ∀ d : SSD1306, d.displayIter.length = 8192 := fun d => by
    simp [SSD1306.displayIter, DISPLAY_PIXELS, DISPLAY_WIDTH, DISPLAY_HEIGHT]
  refine ⟨rfl, ?_, ?_, ?_⟩
  · simp only [displayAfterFrame]
    exact hlen afterFrame.display
  · have hlt : (896 : Nat) < DISPLAY_PIXELS := by
      norm_num [DISPLAY_PIXELS, DISPLAY_WIDTH, DISPLAY_HEIGHT]
    simp only [displayAfterFrame, SSD1306.displayIter, List.getElem?_map,
      List.getElem?_range hlt, Option.map_some]
    decide
  · have hlt : (0 : Nat) < DISPLAY_PIXELS := by
      norm_num [DISPLAY_PIXELS, DISPLAY_WIDTH, DISPLAY_HEIGHT]
    simp only [displayAfterFrame, SSD1306.displayIter, List.getElem?_map,
      List.getElem?_range hlt, Option.map_some]
    decide

/-- C1 (bug evidence): ADD 0x7F + 0x01 stores the sum 0x80 with N = 1, but
the code sets V = 0 and H = 0 because `do_add` writes `regs[rd]` before
passing it to the flag helper; the claim's V (`¬Rd₇·¬Rr₇·R₇`) and H demand
V = 1 here.  ADC at the same input (carry clear) computes V = 1 and H = 1
correctly, isolating the slip to `do_add`. -/
theorem do_add_flags_from_overwritten_rd :
    (ATmega32u4.do_add cpuAdd7f01 0 1).1.regs 0 = 0x80
    ∧ (ATmega32u4.do_add cpuAdd7f01 0 1).1.status.n = true
    ∧ (ATmega32u4.do_add cpuAdd7f01 0 1).1.status.v = false
    ∧ (ATmega32u4.do_add cpuAdd7f01 0 1).1.status.h = false
    ∧ (ATmega32u4.do_adc cpuAdd7f01 0 1).1.status.v = true
    ∧ (ATmega32u4.do_adc cpuAdd7f01 0 1).1.status.h = true := by decide

/-- C2 (bug evidence): after ASR of 0x01 with all flags initially clear,
S = 0 but N = 0 and V = 1, so S ≠ N XOR V — `do_asr` computes S from the
stale V before reassigning V. -/
theorem do_asr_breaks_s_eq_n_xor_v :
    (ATmega32u4.do_asr cpuAsrOne 0).1.status.s = false
    ∧ (ATmega32u4.do_asr cpuAsrOne 0).1.status.n = false
    ∧ (ATmega32u4.do_asr cpuAsrOne 0).1.status.v = true := by decide

/-- C6 (bug evidence): ASR of 0x02 leaves the register at 0x02 — the code
computes `Rd | (Rd & 0x80)`, which never shifts; the claim requires
0x02 >> 1 = 0x01.  (C = bit 0 of the pre-shift value = 0 is as claimed.) -/
theorem do_asr_result_unshifted :
    (ATmega32u4.do_asr cpuAsrTwo 0).1.regs 0 = 2
    ∧ (ATmega32u4.do_asr cpuAsrTwo 0).1.status.c = false := by decide

/-- C7 (bug evidence): interior I/O addresses such as 0x30 do read as 0
and ignore writes, but address 0x20 falls into the register arm
(`0..=REGISTER_SIZE`) and indexes `regs[32]` out of bounds, and every
extended-I/O address (0x60–0xFF) reaches `unreachable!()`; the claim says
none of these fault. -/
theorem data_access_io_boundary_faults (st : ATmega32u4) :
    ATmega32u4.data_load st 0x30 = some 0
    ∧ ATmega32u4.data_store st 0x30 7 = some st
    ∧ ATmega32u4.data_load st 0x20 = none
    ∧ ATmega32u4.data_load st 0x60 = none
    ∧ ATmega32u4.data_load st 0xFF = none
    ∧ ATmega32u4.data_store st 0x60 7 = none := by
  norm_num [ATmega32u4.data_load, ATmega32u4.data_store, REGISTER_START, REGISTER_SIZE,
    IO_REGISTER_START, IO_REGISTER_SIZE, IO_REGISTER_END, SRAM_START, SRAM_SIZE, SRAM_END]

/-- C4: CALL k pushes the return address `pc + 2` with the high byte at
stack index `sp` and the low byte at `sp − 1`, decrements SP by 2, and
jumps to `k` (for an SP inside SRAM and a non-wrapping `pc + 2`). -/
theorem do_call_spec (st : ATmega32u4) (k : Nat)
    (hsp1 : 2 ≤ st.sp) (hsp2 : st.sp ≤ 2559) (hpc : st.pc + 2 ≤ 65535) :
    (ATmega32u4.do_call st k).1.sram st.sp = (st.pc + 2) / 256
    ∧ (ATmega32u4.do_call st k).1.sram (st.sp - 1) = (st.pc + 2) % 256
    ∧ (ATmega32u4.do_call st k).1.sp = st.sp - 2
    ∧ (ATmega32u4.do_call st k).1.pc = k := by
  refine ⟨?_, ?_, rfl, rfl⟩
  · show mem_set_pair st.sram (st.sp - 1) ((st.pc + 2) % 65536) st.sp = (st.pc + 2) / 256
    simp only [mem_set_pair]
    rw [if_neg (by omega), if_pos (by omega)]
    omega
  · show mem_set_pair st.sram (st.sp - 1) ((st.pc + 2) % 65536) (st.sp - 1) = (st.pc + 2) % 256
    simp only [mem_set_pair]
    rw [if_pos trivial]
    omega

/-- Witness for C4: the CALL contract at `pc = 5`, `sp = 0x09FF`,
target `k = 291`. -/
theorem do_call_spec_witness :
    (ATmega32u4.do_call cpuCall 291).1.sram cpuCall.sp = (cpuCall.pc + 2) / 256
    ∧ (ATmega32u4.do_call cpuCall 291).1.sram (cpuCall.sp - 1) = (cpuCall.pc + 2) % 256
    ∧ (ATmega32u4.do_call cpuCall 291).1.sp = cpuCall.sp - 2
    ∧ (ATmega32u4.do_call cpuCall 291).1.pc = 291 :=
  do_call_spec cpuCall 291 (by decide) (by decide) (by decide)

/-- C5: CPC computes `Rd − Rr − C` modulo 256 and the new Z equals
`old Z AND (result = 0)`: Z is unchanged exactly when the result is zero,
cleared otherwise, and never set by CPC. -/
theorem do_cpc_z_spec (st : ATmega32u4) (rd rr : Fin 32)
    (hd : st.regs rd < 256) (hr : st.regs rr < 256) :
    (ATmega32u4.do_cpc st rd rr).1.status.z =
      (st.status.z && decide ((st.regs rd + 512 - st.regs rr
        - (if st.status.c then 1 else 0)) % 256 = 0)) := by
  cases hc : st.status.c <;>
    simp only [ATmega32u4.do_cpc, u8_sub, ATmega32u4.helper_cp_status_flags, hc] <;>
    norm_num <;>
    split_ifs with hres <;>
    cases hz : st.status.z <;>
    simp_all <;>
    omega

/-- Witness for C5: CPC of two equal registers with Z set and C clear
(result 0, Z stays 1). -/
theorem do_cpc_z_spec_witness :
    (ATmega32u4.do_cpc cpuCpc 0 1).1.status.z =
      (cpuCpc.status.z && decide ((cpuCpc.regs 0 + 512 - cpuCpc.regs 1
        - (if cpuCpc.status.c then 1 else 0)) % 256 = 0)) :=
  do_cpc_z_spec cpuCpc 0 1 (by decide) (by decide)

end Arduous
